import Mathlib

/-!
Verification development for the `ds_workflow` column-label validation and
type/category cast subsystem (`ds_workflow/dataset/column_label.py` and
`ds_workflow/dataset/dataset.py`).

The Python code is shallowly embedded: the pandas table is modelled as an
ordered association list from column name to the list of column values,
Python `dict`s as ordered association lists, raised exceptions as an error
value returned next to the (possibly already mutated) state, and Python
`None` / `np.nan` as explicit value constructors.  External collaborators
(CSV loading, pandas value-level casts, `random.shuffle`) are modelled by
small executable stand-ins and are documented at their definitions.
-/

/-- Logical Python types appearing in the module: the six keys of
`NAME_TYPES_MAP` plus `NoneType` (the type of `None`).  The source also keys
`CAST_MAP` on the numpy synonyms `np.int64`, `np.float64`, `object` and
`np.object_`, whose entries duplicate the native ones and are unreachable
through `NAME_TYPES_MAP`; following the spec's synonym-normalization note we
key only on the logical tags. -/
inductive PyType where
  | tInt
  | tFloat
  | tStr
  | tDate
  | tTime
  | tDatetime
  | tNone
  deriving DecidableEq

/-- Python `__name__` of each type object. -/
def typeName : PyType → String
  | .tInt => "int"
  | .tFloat => "float"
  | .tStr => "str"
  | .tDate => "date"
  | .tTime => "time"
  | .tDatetime => "datetime"
  | .tNone => "NoneType"

/-- Column cell values.  `vNan` is the shared `np.nan` object (a float);
date/time-like values are abstracted to an integer code. -/
inductive PyVal where
  | vNone
  | vNan
  | vInt (n : Int)
  | vFloat (q : ℚ)
  | vStr (s : String)
  | vDate (n : Int)
  | vTime (n : Int)
  | vDatetime (n : Int)
  deriving DecidableEq

/-- Python `type(value)`; `type(np.nan)` is `float`. -/
def type_of : PyVal → PyType
  | .vNone => .tNone
  | .vNan => .tFloat
  | .vInt _ => .tInt
  | .vFloat _ => .tFloat
  | .vStr _ => .tStr
  | .vDate _ => .tDate
  | .vTime _ => .tTime
  | .vDatetime _ => .tDatetime

/-- The test `value in (None, np.nan)` on a cell value: identity/equality
with `None` or with the shared `np.nan` object. -/
def val_is_null_marker : PyVal → Bool
  | .vNone => true
  | .vNan => true
  | _ => false

/-- The test `value_type in (None, np.nan)` performed by `Dataset.auto_type`
on a type object: a type object is never `None` and never equal to `nan`,
so the membership always evaluates to false. -/
def type_is_null_marker : PyType → Bool := fun _ => false

/-- Values assignable to a `ColumnLabel` attribute (the argument of
`__setattr__`): a Python `str`, a Python `bool`, or `None`. -/
inductive AttrVal where
  | aStr (s : String)
  | aBool (b : Bool)
  | aNone
  deriving DecidableEq

/-- The primitive type demanded for an attribute by `COLUMN_VALUES`. -/
inductive AttrType where
  | str
  | bool
  deriving DecidableEq

/-- Python `isinstance(value, acceptable_type)` for the two primitive types
used by `COLUMN_VALUES`. -/
def isinstance : AttrVal → AttrType → Bool
  | .aStr _, .str => true
  | .aBool _, .bool => true
  | _, _ => false

def attrTypeName : AttrType → String
  | .str => "str"
  | .bool => "bool"

/-- The `AcceptableAttributes` namedtuple of `column_label.py`. -/
structure AcceptableAttributes where
  type : AttrType
  values : List AttrVal
  deriving DecidableEq

/-- `COLUMN_VALUES` from `column_label.py`: per attribute, the accepted
primitive type and the accepted values.  A missing key is a `KeyError`. -/
def COLUMN_VALUES : String → Option AcceptableAttributes := fun key =>
  if key = "category" then
    some ⟨.str, [.aStr "categorical", .aStr "numeric", .aStr "text", .aStr "date/time"]⟩
  else if key = "type" then
    some ⟨.str, [.aStr "int", .aStr "float", .aStr "str", .aStr "date", .aStr "time",
                 .aStr "datetime"]⟩
  else if key = "is_active" then
    some ⟨.bool, [.aBool true, .aBool false]⟩
  else none

/-- `NAME_TYPES_MAP` from `column_label.py`. -/
def NAME_TYPES_MAP : String → Option PyType := fun s =>
  if s = "str" then some .tStr
  else if s = "float" then some .tFloat
  else if s = "int" then some .tInt
  else if s = "date" then some .tDate
  else if s = "time" then some .tTime
  else if s = "datetime" then some .tDatetime
  else none

/-- One `CAST_MAP` entry: compatible categories (first is the default after
a successful cast) and legal cast targets. -/
structure CastEntry where
  category : List String
  type : List PyType
  deriving DecidableEq

/-- `CAST_MAP` from `column_label.py`, keyed on the logical type tags (the
numpy/object synonym keys of the source carry entries identical to their
native counterparts). -/
def CAST_MAP : PyType → Option CastEntry
  | .tInt => some ⟨["numeric", "categorical"], [.tFloat, .tDatetime]⟩
  | .tFloat => some ⟨["numeric"], [.tInt]⟩
  | .tStr => some ⟨["categorical", "text"], [.tInt, .tFloat, .tDate, .tTime, .tDatetime]⟩
  | .tDate => some ⟨["date/time"], [.tInt]⟩
  | .tTime => some ⟨["date/time"], [.tInt]⟩
  | .tDatetime => some ⟨["date/time"], [.tInt, .tDate, .tTime]⟩
  | .tNone => none

/-- Modelled from the spec: `CATEGORY_MAP` is imported by `dataset.py` from
the column-label module but is absent from the source file; the spec
describes it as a "fixed type→default-category table" used by
`infer_category` for non-string types.  Each primitive type maps to its
default category, the first entry of its Compatibility Matrix categories;
`NoneType` is not a key of the table. -/
def CATEGORY_MAP : PyType → Option String
  | .tInt => some "numeric"
  | .tFloat => some "numeric"
  | .tStr => some "categorical"
  | .tDate => some "date/time"
  | .tTime => some "date/time"
  | .tDatetime => some "date/time"
  | .tNone => none

/-- Exceptions raised by the module, one constructor per raise site.  The
constructors carry the data interpolated into the Python messages. -/
inductive PyErr where
  | invalidAttribute (key tyname : String)
  | invalidValue (value : AttrVal)
  | categoryTypeMismatch (category ty : String)
  | keyError (key : String)
  | attributeError (attr : String)
  | indexError
  | typeError (what : String)
  | columnNotFound (col : String)
  | dataTypeNotFound (col : String)
  | invalidCast (col : String) (target source : PyType)
  | castValueNonNumeric
  | castValueNaNToInt
  | dateParse (col : String)
  | columnExists (col : String)
  | unknownNullStrategy (strategy : String)
  deriving DecidableEq

/-- The `ColumnLabel` record of `column_label.py`. -/
structure ColumnLabel where
  category : String
  type : String
  is_active : Bool
  deriving DecidableEq

/-- Writing `self.__dict__[key] = value` for the three known fields (the
preceding `isinstance` check guarantees the payload kind matches). -/
def ColumnLabel.setField (l : ColumnLabel) (key : String) (v : AttrVal) : ColumnLabel :=
  if key = "category" then
    match v with
    | .aStr s => { l with category := s }
    | _ => l
  else if key = "type" then
    match v with
    | .aStr s => { l with type := s }
    | _ => l
  else if key = "is_active" then
    match v with
    | .aBool b => { l with is_active := b }
    | _ => l
  else l

/-- `ColumnLabel.__setattr__`: look up the attribute in `COLUMN_VALUES`,
check the primitive type, check membership in the accepted values, then
commit the write.  No category/type cross-check happens here. -/
def ColumnLabel.setattr (l : ColumnLabel) (key : String) (v : AttrVal) :
    Except PyErr ColumnLabel :=
  match COLUMN_VALUES key with
  | none => .error (.keyError key)
  | some attrs =>
    if ¬ isinstance v attrs.type then .error (.invalidAttribute key (attrTypeName attrs.type))
    else if v ∉ attrs.values then .error (.invalidValue v)
    else .ok (l.setField key v)

/-- `ColumnLabel.category_type_match`: re-derive the categories allowed for
the current type from `CAST_MAP` via `NAME_TYPES_MAP` and fail when the
current category is not among them. -/
def ColumnLabel.category_type_match (l : ColumnLabel) : Except PyErr Unit :=
  match NAME_TYPES_MAP l.type with
  | none => .error (.keyError l.type)
  | some t =>
    match CAST_MAP t with
    | none => .error (.keyError (typeName t))
    | some entry =>
      if l.category ∈ entry.category then .ok ()
      else .error (.categoryTypeMismatch l.category l.type)

/-- `ColumnLabel.__init__`: assign the three attributes in order (each one
through `__setattr__`), then run `category_type_match`. -/
def ColumnLabel.construct (category ty is_active : AttrVal) : Except PyErr ColumnLabel := do
  let l0 : ColumnLabel := ⟨"", "", false⟩
  let l1 ← l0.setattr "category" category
  let l2 ← l1.setattr "type" ty
  let l3 ← l2.setattr "is_active" is_active
  match l3.category_type_match with
  | .ok _ => .ok l3
  | .error e => .error e

/-- Lookup in an ordered association list (Python `d[k]` read, first match). -/
def alookup (k : String) : List (String × α) → Option α
  | [] => none
  | (k2, v) :: rest => if k = k2 then some v else alookup k rest

/-- Python `d[k] = v` on an ordered dict: replace the value in place when the
key exists, otherwise append the key at the end. -/
def dictInsert (k : String) (v : α) : List (String × α) → List (String × α)
  | [] => [(k, v)]
  | (k2, w) :: rest => if k = k2 then (k, v) :: rest else (k2, w) :: dictInsert k v rest

/-- Python `del d[k]` after a successful lookup: remove the key. -/
def dictDelete (k : String) (l : List (String × α)) : List (String × α) :=
  l.filter (fun p => p.1 ≠ k)

/-- The `split_indices` dict: each partition key is present only once the
corresponding slice has been assigned. -/
structure SplitIndices where
  test : Option (List Nat)
  validate : Option (List Nat)
  train : Option (List Nat)
  deriving DecidableEq

def SplitIndices.empty : SplitIndices := ⟨none, none, none⟩

/-- The `Dataset` state.  The table `df` is an ordered association list from
column name to column values (the CSV loading itself is an external
collaborator: a parsed table is what `__init__` receives).  `labels` is
`none` as long as the `self.labels` attribute was never assigned — which is
what happens when a labels dict is passed to the constructor. -/
structure Dataset where
  df : List (String × List PyVal)
  labels : Option (List (String × ColumnLabel))
  split_indices : SplitIndices
  is_split : Bool
  is_derived : Bool
  target : Option String
  deriving DecidableEq

/-- The table's column name sequence (`self.df.columns`). -/
def Dataset.columns (d : Dataset) : List String := d.df.map Prod.fst

/-- Reading `self.df[col]` (values of the first column with that name). -/
def Dataset.dfGet (d : Dataset) (col : String) : List PyVal :=
  (alookup col d.df).getD []

/-- Writing `self.df[col] = values` for an existing column (pandas writes
every column carrying that label). -/
def Dataset.setDf (d : Dataset) (col : String) (vs : List PyVal) : Dataset :=
  { d with df := d.df.map (fun p => if p.1 = col then (p.1, vs) else p) }

/-- Replacing the label object bound to `col` inside the labels dict. -/
def Dataset.setLabel (d : Dataset) (col : String) (l : ColumnLabel) : Dataset :=
  { d with labels := d.labels.map (dictInsert col l) }

/-- `Dataset.validate_column_name`: `ValueError` when the column is absent. -/
def Dataset.validate_column_name (d : Dataset) (col : String) : Option PyErr :=
  if col ∈ d.columns then none else some (.columnNotFound col)

/-- `Dataset.auto_type`: iterate the column's values; `value_type = type(value)`
is returned as soon as `value_type not in (None, np.nan)` holds (which is
always, see `type_is_null_marker`); the `for`/`else` clause raises
`DataTypeNotFound` when the loop exhausts without returning, i.e. only for
an empty column. -/
def Dataset.auto_type_values (col : String) : List PyVal → Except PyErr PyType
  | [] => .error (.dataTypeNotFound col)
  | v :: rest =>
    if ¬ type_is_null_marker (type_of v) then .ok (type_of v)
    else Dataset.auto_type_values col rest

def Dataset.auto_type (d : Dataset) (col : String) : Except PyErr PyType :=
  Dataset.auto_type_values col (d.dfGet col)

/-- `Dataset.auto_category` on the column's values: for the `str` type the
loop body returns on its very first iteration — `'text'` when the first
value is not a null marker and `len(value) >= 20`, `'categorical'`
otherwise (`len` of a non-string raises `TypeError`); an empty column falls
out of the loop and the function implicitly returns `None`.  For any other
type the category is `CATEGORY_MAP[col_type]`. -/
def Dataset.auto_category_values (col_type : PyType) (vs : List PyVal) :
    Except PyErr (Option String) :=
  if col_type = .tStr then
    match vs with
    | [] => .ok none
    | v :: _ =>
      if val_is_null_marker v then .ok (some "categorical")
      else
        match v with
        | .vStr s => .ok (some (if 20 ≤ s.length then "text" else "categorical"))
        | _ => .error (.typeError "len")
  else
    match CATEGORY_MAP col_type with
    | some c => .ok (some c)
    | none => .error (.keyError (typeName col_type))

def Dataset.auto_category (d : Dataset) (col_type : PyType) (col : String) :
    Except PyErr (Option String) :=
  Dataset.auto_category_values col_type (d.dfGet col)

/-- The category value handed to the `ColumnLabel` constructor (`None` when
`auto_category` fell through without returning). -/
def optToAttr : Option String → AttrVal
  | some s => .aStr s
  | none => .aNone

/-- `Dataset.auto_assign`: validate the column, infer type and category,
construct the label with `is_active=True`. -/
def Dataset.auto_assign (d : Dataset) (col : String) : Except PyErr ColumnLabel :=
  match d.validate_column_name col with
  | some e => .error e
  | none => do
    let t ← d.auto_type col
    let c ← d.auto_category t col
    ColumnLabel.construct (optToAttr c) (.aStr (typeName t)) (.aBool true)

/-- The label auto-generation loop of `__init__` (the dict comprehension
over `self.df.columns`); a later duplicate column name overwrites the
earlier dict entry. -/
def Dataset.gen_labels (d : Dataset) : List String →
    List (String × ColumnLabel) → Except PyErr (List (String × ColumnLabel))
  | [], acc => .ok acc
  | c :: cs, acc =>
    match d.auto_assign c with
    | .error e => .error e
    | .ok l => Dataset.gen_labels d cs (dictInsert c l acc)

/-- `Dataset.__init__`.  The parsed table stands in for `pd.read_csv`; the
labels argument is `None` or a dict (whose contents the source ignores:
the `elif isinstance(labels, dict)` branch is `pass`, leaving the
`self.labels` attribute unset).  A raised exception aborts construction. -/
def Dataset.init (df0 : List (String × List PyVal)) (labels_arg : Option Unit)
    (is_derived : Bool) : Except PyErr Dataset :=
  let base : Dataset :=
    { df := df0, labels := none, split_indices := SplitIndices.empty,
      is_split := false, is_derived := is_derived, target := none }
  match labels_arg with
  | none =>
    match base.gen_labels base.columns [] with
    | .error e => .error e
    | .ok L => .ok { base with labels := some L }
  | some _ => .ok base

/-- `Dataset.set_target`. -/
def Dataset.set_target (d : Dataset) (col : String) : Dataset × Option PyErr :=
  match d.validate_column_name col with
  | some e => (d, some e)
  | none => ({ d with target := some col }, none)

/-- `Dataset.cast_active`: validate the column, then assign
`labels[col].is_active` through `__setattr__`. -/
def Dataset.cast_active (d : Dataset) (col : String) (is_active : Bool) :
    Dataset × Option PyErr :=
  match d.validate_column_name col with
  | some e => (d, some e)
  | none =>
    match d.labels with
    | none => (d, some (.attributeError "labels"))
    | some L =>
      match alookup col L with
      | none => (d, some (.keyError col))
      | some l =>
        match l.setattr "is_active" (.aBool is_active) with
        | .error e => (d, some e)
        | .ok l1 => (d.setLabel col l1, none)

/-- Splitting a character list on a separator (character-level stand-in for
the string splitting the parsing helpers need; core string functions are
not used so every model stays kernel-evaluable). -/
def splitOnChar (sep : Char) : List Char → List (List Char)
  | [] => [[]]
  | c :: rest =>
    match splitOnChar sep rest with
    | [] => [[]]
    | g :: gs => if c = sep then [] :: g :: gs else (c :: g) :: gs

/-- Digit run to number: `some` exactly when the run is nonempty and all
digits. -/
def digitsToNat (cs : List Char) : Option Nat :=
  if cs ≠ [] ∧ cs.all Char.isDigit then
    some (cs.foldl (fun n c => n * 10 + (c.toNat - 48)) 0)
  else none

/-- Signed digit run to integer. -/
def charsToInt (cs : List Char) : Option Int :=
  match cs with
  | '-' :: rest => (digitsToNat rest).map (fun n => -(n : Int))
  | _ => (digitsToNat cs).map (fun n => (n : Int))

/-- Decimal string to rational, modelling the numeric parse `astype(float)`
performs on strings (external pandas behavior; sign plus digits with an
optional fractional part). -/
def strToRat (s : String) : Option ℚ :=
  match splitOnChar (Char.ofNat 46) s.toList with
  | [a] => (charsToInt a).map (fun n => (n : ℚ))
  | [a, b] =>
    match charsToInt a, digitsToNat b with
    | some n, some frac =>
      some (if (match a with | '-' :: _ => true | _ => false) then
              -((Int.natAbs n : ℚ) + (frac : ℚ) / (10 ^ b.length))
            else ((n : ℚ) + (frac : ℚ) / (10 ^ b.length)))
    | _, _ => none
  | _ => none

/-- Python `int()` style truncation toward zero. -/
def ratTrunc (q : ℚ) : Int := if 0 ≤ q then ⌊q⌋ else -⌊-q⌋

/-- Element-level model of the external `Series.astype(target)` cast used by
`cast_type` for non-datetime targets: numeric widening/narrowing, numeric
string parsing, `NaN`/`None` to integer failing (pandas raises
`ValueError`), and date/time-like values to integer as their integer code
(the source comments `CAST_MAP`'s date→int entry as "number of days since x
time").  `none` is a value-level failure. -/
def astype_value (target : PyType) (v : PyVal) : Option PyVal :=
  match target, v with
  | .tFloat, .vInt n => some (.vFloat (n : ℚ))
  | .tFloat, .vFloat q => some (.vFloat q)
  | .tFloat, .vNan => some .vNan
  | .tFloat, .vStr s => (strToRat s).map .vFloat
  | .tFloat, _ => none
  | .tInt, .vInt n => some (.vInt n)
  | .tInt, .vFloat q => some (.vInt (ratTrunc q))
  | .tInt, .vNan => none
  | .tInt, .vNone => none
  | .tInt, .vStr s => (String.toInt? s).map .vInt
  | .tInt, .vDate n => some (.vInt n)
  | .tInt, .vTime n => some (.vInt n)
  | .tInt, .vDatetime n => some (.vInt n)
  | _, _ => none

/-- Simplified model of the external format-aware date parser behind
`pd.to_datetime(values, format=format)` for string cells: ISO `YYYY-MM-DD`
dates are accepted when the format is absent or `"%Y-%m-%d"`; anything else
fails to parse. -/
def parse_date (fmt : Option String) (s : String) : Option Int :=
  if fmt = none ∨ fmt = some "%Y-%m-%d" then
    match splitOnChar (Char.ofNat 45) s.toList with
    | [y, m, d] =>
      match digitsToNat y, digitsToNat m, digitsToNat d with
      | some yn, some mn, some dn =>
        if 1 ≤ mn ∧ mn ≤ 12 ∧ 1 ≤ dn ∧ dn ≤ 31 then
          some ((yn : Int) * 10000 + (mn : Int) * 100 + (dn : Int))
        else none
      | _, _, _ => none
    | _ => none
  else none

/-- Element-level model of the external `pd.to_datetime` conversion:
datetimes and dates pass through, integers are epoch stamps, missing
values become `NaT` (modelled by `vNan`), strings go through the
format-aware parse. -/
def to_datetime_value (fmt : Option String) (v : PyVal) : Option PyVal :=
  match v with
  | .vDatetime n => some (.vDatetime n)
  | .vDate n => some (.vDatetime n)
  | .vInt n => some (.vDatetime n)
  | .vFloat q => some (.vDatetime (ratTrunc q))
  | .vNan => some .vNan
  | .vNone => some .vNan
  | .vStr s => (parse_date fmt s).map .vDatetime
  | .vTime _ => none

/-- The three label writes performed by `cast_type` after a successful value
cast: `labels[col].type = target.__name__`, then `labels[col].category =
CAST_MAP[target]['category'][0]`, then `category_type_match()`. -/
def Dataset.label_update (d : Dataset) (col : String) (target : PyType) :
    Dataset × Option PyErr :=
  match d.labels with
  | none => (d, some (.attributeError "labels"))
  | some L =>
    match alookup col L with
    | none => (d, some (.keyError col))
    | some l =>
      match l.setattr "type" (.aStr (typeName target)) with
      | .error e => (d, some e)
      | .ok l1 =>
        let d1 := d.setLabel col l1
        match CAST_MAP target with
        | none => (d1, some (.keyError (typeName target)))
        | some entry =>
          match entry.category.head? with
          | none => (d1, some .indexError)
          | some cat =>
            match l1.setattr "category" (.aStr cat) with
            | .error e => (d1, some e)
            | .ok l2 =>
              let d2 := d1.setLabel col l2
              match l2.category_type_match with
              | .error e => (d2, some e)
              | .ok _ => (d2, none)

/-- `Dataset.cast_type`: validate the column, derive `from_type` and
`valid_types`, then: a datetime target always goes through the date parse
(regardless of `valid_types`), a target in `valid_types` goes through the
element-wise `astype`, anything else raises.  On value-cast success the
stored values are replaced and the label is updated. -/
def Dataset.cast_type (d : Dataset) (col : String) (target : PyType)
    (fmt : Option String) : Dataset × Option PyErr :=
  match d.validate_column_name col with
  | some e => (d, some e)
  | none =>
    match d.labels with
    | none => (d, some (.attributeError "labels"))
    | some L =>
      match alookup col L with
      | none => (d, some (.keyError col))
      | some l =>
        match NAME_TYPES_MAP l.type with
        | none => (d, some (.keyError l.type))
        | some from_type =>
          match CAST_MAP from_type with
          | none => (d, some (.keyError (typeName from_type)))
          | some entry =>
            if target = .tDatetime then
              match (d.dfGet col).mapM (to_datetime_value fmt) with
              | none => (d, some (.dateParse col))
              | some vs2 => (d.setDf col vs2).label_update col target
            else if target ∈ entry.type then
              match (d.dfGet col).mapM (astype_value target) with
              | none =>
                (d, some (if from_type = .tStr then .castValueNonNumeric
                          else .castValueNaNToInt))
              | some vs2 => (d.setDf col vs2).label_update col target
            else (d, some (.invalidCast col target from_type))

/-- `Dataset.cast_category`: validate the column, assign
`labels[col].category = target` (committed on enum success), then run
`category_type_match` on the already mutated label. -/
def Dataset.cast_category (d : Dataset) (col : String) (cat : String) :
    Dataset × Option PyErr :=
  match d.validate_column_name col with
  | some e => (d, some e)
  | none =>
    match d.labels with
    | none => (d, some (.attributeError "labels"))
    | some L =>
      match alookup col L with
      | none => (d, some (.keyError col))
      | some l =>
        match l.setattr "category" (.aStr cat) with
        | .error e => (d, some e)
        | .ok l1 =>
          let d1 := d.setLabel col l1
          match l1.category_type_match with
          | .error e => (d1, some e)
          | .ok _ => (d1, none)

/-- Row positions that survive `df.drop(index=to_drop)` (the index is the
positional range index the loader produces). -/
def dropRowsAt (idxs : List Nat) (vs : List PyVal) : List PyVal :=
  (vs.enum.filter (fun p => p.1 ∉ idxs)).map Prod.snd

/-- `Dataset.drop_rows`: drop the listed row indices from every column. -/
def Dataset.drop_rows (d : Dataset) (to_drop : List Nat) : Dataset :=
  { d with df := d.df.map (fun p => (p.1, dropRowsAt to_drop p.2)) }

/-- Indices at which a column is null (`Series.isna`). -/
def nullIdxs (vs : List PyVal) : List Nat :=
  (vs.enum.filter (fun p => val_is_null_marker p.2)).map Prod.fst

/-- `Dataset.drop_null_rows`: validate the column, then drop its null rows. -/
def Dataset.drop_null_rows (d : Dataset) (col : String) : Dataset × Option PyErr :=
  match d.validate_column_name col with
  | some e => (d, some e)
  | none => (d.drop_rows (nullIdxs (d.dfGet col)), none)

/-- The `drop_columns` loop: per column, validate, drop it from the table
(`df.drop` removes every column carrying the label), then `del` its labels
entry — an exception stops the loop with the mutations so far in place. -/
def Dataset.drop_columns (d : Dataset) : List String → Dataset × Option PyErr
  | [] => (d, none)
  | c :: cs =>
    match d.validate_column_name c with
    | some e => (d, some e)
    | none =>
      let d1 : Dataset := { d with df := d.df.filter (fun p => p.1 ≠ c) }
      match d1.labels with
      | none => (d1, some (.attributeError "labels"))
      | some L =>
        match alookup c L with
        | none => (d1, some (.keyError c))
        | some _ => Dataset.drop_columns { d1 with labels := some (dictDelete c L) } cs

/-- Argument of `add_columns`: a DataFrame (named columns) or a Series. -/
inductive PdObj where
  | frame (cols : List (String × List PyVal))
  | series (name : String) (vs : List PyVal)

/-- The labeling loop of `add_columns` over the new frame's column names:
`self.labels[col] = self.auto_assign(col)` — the right-hand side can raise,
stopping the loop after the table was already extended. -/
def Dataset.add_labels_loop (d : Dataset) : List String → Dataset × Option PyErr
  | [] => (d, none)
  | c :: cs =>
    match d.auto_assign c with
    | .error e => (d, some e)
    | .ok l =>
      match d.labels with
      | none => (d, some (.attributeError "labels"))
      | some L => Dataset.add_labels_loop { d with labels := some (dictInsert c l L) } cs

/-- `Dataset.add_columns`.  For a DataFrame, `pd.concat([df, to_add],
axis=1)` appends the new columns (index alignment is the external library's
business; columns are taken as already aligned), then each new column gets
an auto-assigned label.  For a Series, the source auto-assigns a label for
a column that was never added to the table — `auto_assign` validates the
name against the table and raises — or raises when the name already
exists. -/
def Dataset.add_columns (d : Dataset) : PdObj → Dataset × Option PyErr
  | .frame cols =>
    Dataset.add_labels_loop { d with df := d.df ++ cols } (cols.map Prod.fst)
  | .series name _ =>
    if name ∈ d.columns then (d, some (.columnExists name))
    else
      match d.auto_assign name with
      | .error e => (d, some e)
      | .ok l =>
        match d.labels with
        | none => (d, some (.attributeError "labels"))
        | some L => ({ d with labels := some (dictInsert name l L) }, none)

/-- String form of a cell value used in dummy-column names. -/
def pyValStr : PyVal → String
  | .vStr s => s
  | .vInt n => toString n
  | _ => "v"

/-- Distinct non-null values of a column in first-occurrence order
(`pd.get_dummies` ignores nulls; it sorts the distinct values, an external
detail that only permutes the produced columns). -/
def dummyUniques (vs : List PyVal) : List PyVal :=
  (vs.filter (fun v => ¬ val_is_null_marker v)).dedup

/-- Model of the external `pd.get_dummies`: one 0/1 integer column per
distinct non-null value, named from the prefix-and-separator, with
`drop_first` removing the first dummy. -/
def get_dummies (vs : List PyVal) (pref sep : String) (drop_first : Bool) :
    List (String × List PyVal) :=
  let uniq := if drop_first then (dummyUniques vs).drop 1 else dummyUniques vs
  uniq.map (fun u => (pref ++ sep ++ pyValStr u,
    vs.map (fun v => PyVal.vInt (if v = u then 1 else 0))))

/-- `Dataset.to_dummies`: validate, build the dummy frame (prefix defaults to
the column name, separator to an underscore), `add_columns` it, and when
`drop_categorical` is set drop the original column. -/
def Dataset.to_dummies (d : Dataset) (col : String) (drop_categorical drop_first : Bool)
    (pref sep : Option String) : Dataset × Option PyErr :=
  match d.validate_column_name col with
  | some e => (d, some e)
  | none =>
    match d.add_columns
        (.frame (get_dummies (d.dfGet col) (pref.getD col) (sep.getD "_") drop_first)) with
    | (d1, some e) => (d1, some e)
    | (d1, none) =>
      if drop_categorical then d1.drop_columns [col] else (d1, none)

/-- Model of the external `Series.mean(skipna=True)`: the mean of the
numeric cells as a float, `NaN` when there are none; a non-null
non-numeric cell makes pandas raise `TypeError`. -/
def seriesMean (vs : List PyVal) : Except PyErr PyVal :=
  if vs.any (fun v => !val_is_null_marker v &&
      match v with | .vInt _ => false | .vFloat _ => false | _ => true) then
    .error (.typeError "mean")
  else
    let nums := vs.filterMap (fun v =>
      match v with
      | .vInt n => some ((n : ℚ))
      | .vFloat q => some q
      | _ => none)
    if nums.length = 0 then .ok .vNan
    else .ok (.vFloat (nums.sum / (nums.length : ℚ)))

/-- The `fill_average` branch: `df[col].mean(skipna=True)` (a missing column
is a `KeyError`), then `fillna(value=average)` replaces the null cells. -/
def Dataset.fill_average (d : Dataset) (col : String) : Dataset × Option PyErr :=
  match alookup col d.df with
  | none => (d, some (.keyError col))
  | some vs =>
    match seriesMean vs with
    | .error e => (d, some e)
    | .ok avg =>
      (d.setDf col (vs.map (fun v => if val_is_null_marker v then avg else v)), none)

/-- `Dataset.handle_nulls`: three separate `if` statements — the `else`
raising the unknown-strategy `ValueError` is attached only to the
`fill_average` check, so it also fires after a completed `drop_rows` or
`drop_column` action. -/
def Dataset.handle_nulls (d : Dataset) (col strategy : String) : Dataset × Option PyErr :=
  match (if strategy = "drop_rows" then d.drop_null_rows col else (d, none)) with
  | (d1, some e) => (d1, some e)
  | (d1, none) =>
    match (if strategy = "drop_column" then d1.drop_columns [col] else (d1, none)) with
    | (d2, some e) => (d2, some e)
    | (d2, none) =>
      if strategy = "fill_average" then d2.fill_average col
      else (d2, some (.unknownNullStrategy strategy))

/-- Python `int(x)` truncation toward zero of a rational. -/
def pyInt (q : ℚ) : Int := ratTrunc q

/-- Number of table rows, `len(self.df.index)`. -/
def Dataset.nrows (d : Dataset) : Nat :=
  match d.df with
  | [] => 0
  | (_, vs) :: _ => vs.length

/-- `Dataset.split`.  The seeded `random.shuffle` of `range(size)` is the
external randomness; the shuffled index list it produces is passed in.
Slice sizes are `int(test*size)` and `int(validate*size)`; the `test` and
`train` keys are always (re)assigned, the `validate` key only when
`validate > 0` (an older value would survive); `is_split` becomes true. -/
def Dataset.split (d : Dataset) (shuffled : List Nat) (test validate : ℚ) : Dataset :=
  let size := d.nrows
  let test_size := (pyInt (test * size)).toNat
  let val_size := (pyInt (validate * size)).toNat
  { d with
    split_indices :=
      { test := some (shuffled.take test_size)
        validate := if 0 < validate then some ((shuffled.drop test_size).take val_size)
                    else d.split_indices.validate
        train := some (shuffled.drop (test_size + val_size)) }
    is_split := true }

/-- The set of label keys, when the `labels` attribute exists. -/
def Dataset.labelKeySet (d : Dataset) : Option (Finset String) :=
  d.labels.map (fun L => (L.map Prod.fst).toFinset)

/-- The spec's Dataset invariant: `labels.keys()` equals the table's column
set. -/
def labels_in_sync (d : Dataset) : Prop :=
  d.labelKeySet = some ((d.df.map Prod.fst).toFinset)

instance (d : Dataset) : Decidable (labels_in_sync d) := by
  unfold labels_in_sync
  infer_instance

/-- The designated default category of a type: the first entry of its
Compatibility Matrix categories (empty string for a non-key of the
matrix). -/
def defaultCat : PyType → String
  | .tInt => "numeric"
  | .tFloat => "numeric"
  | .tStr => "categorical"
  | .tDate => "date/time"
  | .tTime => "date/time"
  | .tDatetime => "date/time"
  | .tNone => ""

/-- `CAST_MAP[t]['type']`, the legal cast targets of a type. -/
def castable (t : PyType) : List PyType := ((CAST_MAP t).getD ⟨[], []⟩).type

/-- `CAST_MAP[t]['category']`, the compatible categories of a type. -/
def compatCategories (t : PyType) : List String := ((CAST_MAP t).getD ⟨[], []⟩).category

/-- The element-wise value conversion `cast_type` performs for a target
type: the format-aware datetime parse for the datetime target, the
`astype` cast otherwise (mirrors the branch structure of the source). -/
def value_cast (t : PyType) (fmt : Option String) (vs : List PyVal) : Option (List PyVal) :=
  if t = .tDatetime then vs.mapM (to_datetime_value fmt) else vs.mapM (astype_value t)

/-- Fixture: one integer column named `a`. -/
def dsA : Dataset :=
  ⟨[("a", [.vInt 1])], some [("a", ⟨"numeric", "int", true⟩)],
   SplitIndices.empty, false, false, none⟩

/-- Fixture: a dataset with no columns and an empty labels dict. -/
def dsEmpty : Dataset := ⟨[], some [], SplitIndices.empty, false, false, none⟩

/-- Fixture: a float-typed column holding a single `NaN`. -/
def dsFloatNan : Dataset :=
  ⟨[("x", [.vNan])], some [("x", ⟨"numeric", "float", true⟩)],
   SplitIndices.empty, false, false, none⟩

/-- Fixture: a float-typed column holding `1.5`. -/
def dsFloat : Dataset :=
  ⟨[("x", [.vFloat (3/2)])], some [("x", ⟨"numeric", "float", true⟩)],
   SplitIndices.empty, false, false, none⟩

/-- Fixture: an int-typed column holding `3`. -/
def dsInt : Dataset :=
  ⟨[("x", [.vInt 3])], some [("x", ⟨"numeric", "int", true⟩)],
   SplitIndices.empty, false, false, none⟩

/-- Fixture: a float-typed column whose stored value is a non-date string. -/
def dsStr : Dataset :=
  ⟨[("x", [.vStr "oops"])], some [("x", ⟨"numeric", "float", true⟩)],
   SplitIndices.empty, false, false, none⟩

/-- Fixture: a four-row integer column. -/
def dsRows : Dataset :=
  ⟨[("a", [.vInt 10, .vInt 11, .vInt 12, .vInt 13])],
   some [("a", ⟨"numeric", "int", true⟩)], SplitIndices.empty, false, false, none⟩

/-! Helper lemmas about the dict model. -/

theorem alookup_isSome_iff {α : Type} (k : String) (L : List (String × α)) :
    (alookup k L).isSome = true ↔ k ∈ L.map Prod.fst := by
  induction L with
  | nil => simp [alookup]
  | cons p rest ih =>
    obtain ⟨k2, v⟩ := p
    by_cases h : k = k2
    · subst h
      simp [alookup]
    · simp [alookup, h, ih, Ne.symm h]

theorem alookup_dictInsert_self {α : Type} (k : String) (v : α) (L : List (String × α)) :
    alookup k (dictInsert k v L) = some v := by
  induction L with
  | nil => simp [alookup, dictInsert]
  | cons p rest ih =>
    obtain ⟨k2, w⟩ := p
    by_cases h : k = k2
    · subst h
      simp [alookup, dictInsert]
    · simp [alookup, dictInsert, h, ih]

theorem dictInsert_dictInsert {α : Type} (k : String) (a b : α) (L : List (String × α)) :
    dictInsert k b (dictInsert k a L) = dictInsert k b L := by
  induction L with
  | nil => simp [dictInsert]
  | cons p rest ih =>
    obtain ⟨k2, w⟩ := p
    by_cases h : k = k2
    · subst h
      simp [dictInsert]
    · simp [dictInsert, h, ih]

theorem keys_dictInsert {α : Type} (k : String) (v : α) (L : List (String × α)) :
    ((dictInsert k v L).map Prod.fst).toFinset = insert k (L.map Prod.fst).toFinset := by
  induction L with
  | nil => simp [dictInsert]
  | cons p rest ih =>
    obtain ⟨k2, w⟩ := p
    by_cases h : k = k2
    · subst h
      simp [dictInsert]
    · simp only [dictInsert, if_neg h, List.map_cons, List.toFinset_cons, ih]
      ext x
      simp
      tauto

theorem keys_filter_ne {α : Type} (k : String) (L : List (String × α)) :
    ((L.filter (fun p => p.1 ≠ k)).map Prod.fst).toFinset =
      ((L.map Prod.fst).toFinset).erase k := by
  ext x
  simp only [List.mem_toFinset, List.mem_map, List.mem_filter, Finset.mem_erase]
  constructor
  · rintro ⟨p, ⟨hp, hne⟩, rfl⟩
    exact ⟨by simpa using hne, ⟨p, hp, rfl⟩⟩
  · rintro ⟨hne, p, hp, rfl⟩
    exact ⟨p, ⟨hp, by simpa using hne⟩, rfl⟩

theorem keys_dictDelete {α : Type} (k : String) (L : List (String × α)) :
    ((dictDelete k L).map Prod.fst).toFinset = ((L.map Prod.fst).toFinset).erase k :=
  keys_filter_ne k L

/-! Helper lemmas about `ColumnLabel` operations. -/

theorem setattr_ok_dest {l l2 : ColumnLabel} {key : String} {v : AttrVal}
    (h : l.setattr key v = .ok l2) :
    ∃ attrs, COLUMN_VALUES key = some attrs ∧ isinstance v attrs.type = true ∧
      v ∈ attrs.values ∧ l2 = l.setField key v := by
  unfold ColumnLabel.setattr at h
  cases hco : COLUMN_VALUES key with
  | none => rw [hco] at h; exact absurd h (by simp)
  | some attrs =>
    rw [hco] at h
    by_cases h1 : isinstance v attrs.type = true
    · by_cases h2 : v ∈ attrs.values
      · refine ⟨attrs, rfl, h1, h2, ?_⟩
        simp [h1, h2] at h
        exact h.symm
      · simp [h1, h2] at h
    · simp [h1] at h

theorem setattr_type_typeName (l : ColumnLabel) (t : PyType) (ht : t ≠ .tNone) :
    l.setattr "type" (.aStr (typeName t)) = .ok { l with type := typeName t } := by
  cases t <;>
    simp [ColumnLabel.setattr, COLUMN_VALUES, typeName, isinstance, ColumnLabel.setField] <;>
    first
      | rfl
      | exact absurd rfl ht

theorem setattr_category_mem (l : ColumnLabel) (c : String)
    (hc : c = "categorical" ∨ c = "numeric" ∨ c = "text" ∨ c = "date/time") :
    l.setattr "category" (.aStr c) = .ok { l with category := c } := by
  rcases hc with rfl | rfl | rfl | rfl <;>
    simp [ColumnLabel.setattr, COLUMN_VALUES, isinstance, ColumnLabel.setField]

theorem NAME_TYPES_MAP_typeName (t : PyType) (ht : t ≠ .tNone) :
    NAME_TYPES_MAP (typeName t) = some t := by
  cases t <;> first | rfl | exact absurd rfl ht

theorem NAME_TYPES_MAP_ne_tNone {s : String} {t : PyType} (h : NAME_TYPES_MAP s = some t) :
    t ≠ .tNone := by
  unfold NAME_TYPES_MAP at h
  split_ifs at h <;> (injection h with h2; subst h2; decide)

theorem CAST_MAP_head (t : PyType) (ht : t ≠ .tNone) :
    ∃ e, CAST_MAP t = some e ∧ e.category.head? = some (defaultCat t) ∧
      defaultCat t ∈ e.category := by
  cases t <;> first
    | exact absurd rfl ht
    | exact ⟨_, rfl, rfl, by decide⟩

theorem tNone_not_mem_cast_targets {ft : PyType} {e : CastEntry}
    (he : CAST_MAP ft = some e) : PyType.tNone ∉ e.type := by
  cases ft <;> simp [CAST_MAP] at he <;> subst he <;> decide

theorem cast_targets_ne_tNone {ft : PyType} {e : CastEntry} {t : PyType}
    (he : CAST_MAP ft = some e) (hmem : t ∈ e.type) : t ≠ .tNone := by
  intro hcon
  subst hcon
  exact tNone_not_mem_cast_targets he hmem

theorem match_defaultCat (t : PyType) (ht : t ≠ .tNone) (b : Bool) :
    ColumnLabel.category_type_match ⟨defaultCat t, typeName t, b⟩ = .ok () := by
  cases t <;> first | rfl | exact absurd rfl ht

theorem defaultCat_mem_enum (t : PyType) (ht : t ≠ .tNone) :
    defaultCat t = "categorical" ∨ defaultCat t = "numeric" ∨ defaultCat t = "text" ∨
      defaultCat t = "date/time" := by
  cases t <;> first
    | exact absurd rfl ht
    | simp [defaultCat]

/-! Helper lemmas about `Dataset` operations. -/

theorem validate_none_of_mem {d : Dataset} {col : String} (h : col ∈ d.columns) :
    d.validate_column_name col = none := by
  simp [Dataset.validate_column_name, h]

theorem validate_some_of_not_mem {d : Dataset} {col : String} (h : col ∉ d.columns) :
    d.validate_column_name col = some (.columnNotFound col) := by
  simp [Dataset.validate_column_name, h]

theorem columns_setDf (d : Dataset) (col : String) (vs : List PyVal) :
    (d.setDf col vs).columns = d.columns := by
  unfold Dataset.setDf Dataset.columns
  simp only [List.map_map]
  congr 1
  funext p
  by_cases h : p.1 = col <;> simp [h]

theorem alookup_map_setcol {α : Type} (col : String) (vs : α) (L : List (String × α))
    (h : col ∈ L.map Prod.fst) :
    alookup col (L.map (fun p => if p.1 = col then (p.1, vs) else p)) = some vs := by
  induction L with
  | nil => simp at h
  | cons p rest ih =>
    obtain ⟨k2, w⟩ := p
    by_cases hp : k2 = col
    · subst hp
      have hmap : (List.map (fun p => if p.1 = k2 then (p.1, vs) else p) ((k2, w) :: rest))
          = (k2, vs) :: List.map (fun p => if p.1 = k2 then (p.1, vs) else p) rest := by
        simp
      rw [hmap]
      simp [alookup]
    · have hmap : (List.map (fun p => if p.1 = col then (p.1, vs) else p) ((k2, w) :: rest))
          = (k2, w) :: List.map (fun p => if p.1 = col then (p.1, vs) else p) rest := by
        simp [hp]
      rw [hmap]
      have h2 : col ∈ List.map Prod.fst rest := by
        simp only [List.map_cons] at h
        rcases List.mem_cons.mp h with h1 | h1
        · exact absurd h1.symm hp
        · exact h1
      simp only [alookup]
      rw [if_neg (fun hc : col = k2 => hp hc.symm)]
      exact ih h2

theorem dfGet_setDf_self {d : Dataset} {col : String} (vs : List PyVal)
    (h : col ∈ d.columns) : (d.setDf col vs).dfGet col = vs := by
  unfold Dataset.setDf Dataset.dfGet
  simp only
  rw [alookup_map_setcol col vs d.df h]
  rfl

theorem label_update_ok (d : Dataset) (col : String) (t : PyType)
    (L : List (String × ColumnLabel)) (l : ColumnLabel)
    (hL : d.labels = some L) (hl : alookup col L = some l) (ht : t ≠ .tNone) :
    d.label_update col t =
      ({ d with
          labels := some (dictInsert col ⟨defaultCat t, typeName t, l.is_active⟩ L) },
        none) := by
  obtain ⟨e, he, hhead, _⟩ := CAST_MAP_head t ht
  have hset1 : ∀ l0 : ColumnLabel,
      l0.setattr "type" (.aStr (typeName t)) = .ok { l0 with type := typeName t } :=
    fun l0 => setattr_type_typeName l0 t ht
  have hset2 : ∀ l0 : ColumnLabel,
      l0.setattr "category" (.aStr (defaultCat t)) = .ok { l0 with category := defaultCat t } :=
    fun l0 => setattr_category_mem l0 _ (defaultCat_mem_enum t ht)
  have hm : ∀ b : Bool,
      ColumnLabel.category_type_match ⟨defaultCat t, typeName t, b⟩ = .ok () :=
    match_defaultCat t ht
  unfold Dataset.label_update
  simp only [hL, hl, hset1, he, hhead, hset2, hm, Dataset.setLabel, Option.map_some]
  simp [dictInsert_dictInsert]

theorem cast_type_spec (d : Dataset) (col : String) (t : PyType) (fmt : Option String) :
    ((d.cast_type col t fmt).1 = d ∧ (d.cast_type col t fmt).2 ≠ none) ∨
    (∃ L l vs2, d.labels = some L ∧ alookup col L = some l ∧ t ≠ .tNone ∧
      value_cast t fmt (d.dfGet col) = some vs2 ∧
      d.cast_type col t fmt =
        ({ d.setDf col vs2 with
            labels := some (dictInsert col ⟨defaultCat t, typeName t, l.is_active⟩ L) },
          none)) := by
  unfold Dataset.cast_type
  cases hv : d.validate_column_name col with
  | some e => left; simp [hv]
  | none =>
  cases hL : d.labels with
  | none => left; simp [hv, hL]
  | some L =>
  cases hl : alookup col L with
  | none => left; simp [hv, hL, hl]
  | some l =>
  cases hnt : NAME_TYPES_MAP l.type with
  | none => left; simp [hv, hL, hl, hnt]
  | some ft =>
  cases hcm : CAST_MAP ft with
  | none => left; simp [hv, hL, hl, hnt, hcm]
  | some entry =>
  by_cases hdt : t = .tDatetime
  · subst hdt
    cases hmm : (d.dfGet col).mapM (to_datetime_value fmt) with
    | none => left; simp [hv, hL, hl, hnt, hcm, hmm]
    | some vs2 =>
      right
      refine ⟨L, l, vs2, rfl, hl, by decide, by simpa [value_cast] using hmm, ?_⟩
      simp only [hv, hL, hl, hnt, hcm, hmm]
      exact label_update_ok (d.setDf col vs2) col .tDatetime L l hL hl (by decide)
  · by_cases hmem : t ∈ entry.type
    · cases hmm : (d.dfGet col).mapM (astype_value t) with
      | none => left; simp [hv, hL, hl, hnt, hcm, hdt, hmem, hmm]
      | some vs2 =>
        right
        have hne : t ≠ .tNone := cast_targets_ne_tNone hcm hmem
        refine ⟨L, l, vs2, rfl, hl, hne, by simpa [value_cast, hdt] using hmm, ?_⟩
        simp only [hv, hL, hl, hnt, hcm, hdt, hmem, hmm, if_neg hdt, if_pos hmem]
        exact label_update_ok (d.setDf col vs2) col t L l hL hl hne
    · left; simp [hv, hL, hl, hnt, hcm, hdt, hmem]

theorem setField_category (l : ColumnLabel) (c : String) :
    l.setField "category" (.aStr c) = { l with category := c } := by
  simp [ColumnLabel.setField]

theorem setattr_is_active (l : ColumnLabel) (b : Bool) :
    l.setattr "is_active" (.aBool b) = .ok { l with is_active := b } := by
  cases b <;> simp [ColumnLabel.setattr, COLUMN_VALUES, isinstance, ColumnLabel.setField]

theorem cast_type_ok_of (d : Dataset) (col : String) (t : PyType) (fmt : Option String)
    (L : List (String × ColumnLabel)) (l : ColumnLabel) (ft : PyType) (entry : CastEntry)
    (vs2 : List PyVal)
    (hcol : col ∈ d.columns) (hL : d.labels = some L) (hl : alookup col L = some l)
    (hnt : NAME_TYPES_MAP l.type = some ft) (hcm : CAST_MAP ft = some entry)
    (hok : t = .tDatetime ∨ t ∈ entry.type)
    (hvc : value_cast t fmt (d.dfGet col) = some vs2) :
    d.cast_type col t fmt =
      ({ d.setDf col vs2 with
          labels := some (dictInsert col ⟨defaultCat t, typeName t, l.is_active⟩ L) },
        none) := by
  unfold Dataset.cast_type
  simp only [validate_none_of_mem hcol, hL, hl, hnt, hcm]
  by_cases hdt : t = .tDatetime
  · subst hdt
    have hvc2 : (d.dfGet col).mapM (to_datetime_value fmt) = some vs2 := by
      simpa [value_cast] using hvc
    simp only [if_true]
    rw [hvc2]
    exact label_update_ok (d.setDf col vs2) col .tDatetime L l hL hl (by decide)
  · have hmem : t ∈ entry.type := hok.resolve_left hdt
    have hne : t ≠ .tNone := cast_targets_ne_tNone hcm hmem
    have hvc2 : (d.dfGet col).mapM (astype_value t) = some vs2 := by
      simpa [value_cast, hdt] using hvc
    rw [if_neg hdt, if_pos hmem, hvc2]
    exact label_update_ok (d.setDf col vs2) col t L l hL hl hne

theorem cast_category_cases (d : Dataset) (col cat : String) :
    (d.cast_category col cat).1 = d ∨
    (∃ L l, d.labels = some L ∧ alookup col L = some l ∧
      (d.cast_category col cat).1 =
        { d with labels := some (dictInsert col { l with category := cat } L) }) := by
  unfold Dataset.cast_category
  cases hv : d.validate_column_name col with
  | some e => left; simp [hv]
  | none =>
  cases hL : d.labels with
  | none => left; simp [hv, hL]
  | some L =>
  cases hl : alookup col L with
  | none => left; simp [hv, hL, hl]
  | some l =>
  cases hs : l.setattr "category" (.aStr cat) with
  | error e => left; simp [hv, hL, hl, hs]
  | ok l1 =>
    right
    obtain ⟨attrs, _, _, _, hfield⟩ := setattr_ok_dest hs
    have hl1 : l1 = { l with category := cat } := by rw [hfield, setField_category]
    refine ⟨L, l, rfl, hl, ?_⟩
    subst hl1
    cases hm : ColumnLabel.category_type_match { l with category := cat } with
    | error e => simp [hv, hL, hl, hs, hm, Dataset.setLabel]
    | ok u => simp [hv, hL, hl, hs, hm, Dataset.setLabel]

theorem cast_active_cases (d : Dataset) (col : String) (b : Bool) :
    (d.cast_active col b).1 = d ∨
    (∃ L l, d.labels = some L ∧ alookup col L = some l ∧
      (d.cast_active col b).1 =
        { d with labels := some (dictInsert col { l with is_active := b } L) }) := by
  unfold Dataset.cast_active
  cases hv : d.validate_column_name col with
  | some e => left; simp [hv]
  | none =>
  cases hL : d.labels with
  | none => left; simp [hv, hL]
  | some L =>
  cases hl : alookup col L with
  | none => left; simp [hv, hL, hl]
  | some l =>
    right
    refine ⟨L, l, rfl, hl, ?_⟩
    simp [hv, hL, hl, setattr_is_active, Dataset.setLabel]

/-- C3: `cast_type` is atomic — whenever it raises, both the stored values
and the label are unchanged; when the element-wise value cast fully
succeeds, the stored values become the cast result, the label's type
becomes the target type and its category becomes the first entry of the
Compatibility Matrix categories for the target, and the final
category/type match check passes. -/
theorem claim3_cast_type_atomic (d : Dataset) (col : String) (t : PyType)
    (fmt : Option String) :
    ((d.cast_type col t fmt).2 ≠ none → (d.cast_type col t fmt).1 = d) ∧
    ((d.cast_type col t fmt).2 = none →
      ∃ L l vs2, d.labels = some L ∧ alookup col L = some l ∧
        value_cast t fmt (d.dfGet col) = some vs2 ∧
        (d.cast_type col t fmt).1 =
          { d.setDf col vs2 with
              labels := some (dictInsert col ⟨defaultCat t, typeName t, l.is_active⟩ L) } ∧
        (compatCategories t).head? = some (defaultCat t) ∧
        ColumnLabel.category_type_match ⟨defaultCat t, typeName t, l.is_active⟩ = .ok ()) := by
  rcases cast_type_spec d col t fmt with ⟨h1, h2⟩ | ⟨L, l, vs2, hL, hl, hne, hvc, heq⟩
  · exact ⟨fun _ => h1, fun h => absurd h h2⟩
  · constructor
    · intro hn
      exact absurd (by rw [heq]) hn
    · intro _
      obtain ⟨e, he, hhead, _⟩ := CAST_MAP_head t hne
      refine ⟨L, l, vs2, hL, hl, hvc, by rw [heq], ?_,
        match_defaultCat t hne l.is_active⟩
      simp [compatCategories, he, hhead]

/-- Witness for C3: casting a float column containing `NaN` to int raises
the null-to-integer `CastValueError` and leaves the whole dataset (values
and label) unchanged. -/
theorem claim3_witness :
    Dataset.cast_type dsFloatNan "x" PyType.tInt none =
      (dsFloatNan, some PyErr.castValueNaNToInt) := by
  have h1 := (claim3_cast_type_atomic dsFloatNan "x" PyType.tInt none).1 (by decide)
  have h2 : (Dataset.cast_type dsFloatNan "x" PyType.tInt none).2 =
      some PyErr.castValueNaNToInt := by decide
  exact Prod.ext h1 h2

/-- C7: for an existing column, a datetime-target cast always attempts the
format-aware parse regardless of the current type's `castable_to` set (no
`valid_targets` membership is assumed); a parse failure raises
`DateParseError` carrying the column name, a parse success raises
nothing. -/
theorem claim7_datetime_bypass (d : Dataset) (col : String) (fmt : Option String)
    (L : List (String × ColumnLabel)) (l : ColumnLabel) (ft : PyType)
    (hcol : col ∈ d.columns) (hL : d.labels = some L) (hl : alookup col L = some l)
    (hnt : NAME_TYPES_MAP l.type = some ft) :
    ((d.dfGet col).mapM (to_datetime_value fmt) = none →
      d.cast_type col .tDatetime fmt = (d, some (.dateParse col))) ∧
    (∀ vs2, (d.dfGet col).mapM (to_datetime_value fmt) = some vs2 →
      (d.cast_type col .tDatetime fmt).2 = none) := by
  have hft : ft ≠ .tNone := NAME_TYPES_MAP_ne_tNone hnt
  obtain ⟨entry, he, _, _⟩ := CAST_MAP_head ft hft
  constructor
  · intro hmm
    unfold Dataset.cast_type
    simp only [validate_none_of_mem hcol, hL, hl, hnt, he, if_true]
    rw [hmm]
  · intro vs2 hmm
    have h := cast_type_ok_of d col .tDatetime fmt L l ft entry vs2 hcol hL hl hnt he
      (Or.inl rfl) (by simpa [value_cast] using hmm)
    rw [h]

/-- Witness for C7: a column whose label says `float` (datetime is not in
`castable_to(float)`) still goes down the datetime parse path, and the
unparsable string produces `DateParseError` naming the column. -/
theorem claim7_witness :
    Dataset.cast_type dsStr "x" PyType.tDatetime none =
      (dsStr, some (PyErr.dateParse "x")) ∧
    PyType.tDatetime ∉ castable PyType.tFloat := by
  constructor
  · exact (claim7_datetime_bypass dsStr "x" none
      [("x", ⟨"numeric", "float", true⟩)] ⟨"numeric", "float", true⟩ PyType.tFloat
      (by decide) rfl rfl rfl).1 rfl
  · decide

/-- C8 amended: when the element-wise value casts of both legs succeed,
casting a column from type A to B (with B castable from A and A castable
from B) and back raises nothing and leaves the label's category at the
default (first compatible) category for A. -/
theorem claim8_roundtrip_amended (d : Dataset) (col : String) (A B : PyType)
    (L : List (String × ColumnLabel)) (l : ColumnLabel) (vs1 vs2 : List PyVal)
    (hcol : col ∈ d.columns) (hL : d.labels = some L) (hl : alookup col L = some l)
    (hty : l.type = typeName A) (hA : A ≠ .tNone)
    (hAB : B ∈ castable A) (hBA : A ∈ castable B)
    (h1 : value_cast B none (d.dfGet col) = some vs1)
    (h2 : value_cast A none vs1 = some vs2) :
    (d.cast_type col B none).2 = none ∧
    ((d.cast_type col B none).1.cast_type col A none).2 = none ∧
    (∃ L2, ((d.cast_type col B none).1.cast_type col A none).1.labels = some L2 ∧
      alookup col L2 = some ⟨defaultCat A, typeName A, l.is_active⟩) ∧
    (compatCategories A).head? = some (defaultCat A) := by
  obtain ⟨eA, heA, hheadA, _⟩ := CAST_MAP_head A hA
  have hAB2 : B ∈ eA.type := by simpa [castable, heA] using hAB
  have hB : B ≠ .tNone := cast_targets_ne_tNone heA hAB2
  obtain ⟨eB, heB, _, _⟩ := CAST_MAP_head B hB
  have hBA2 : A ∈ eB.type := by simpa [castable, heB] using hBA
  have hnt1 : NAME_TYPES_MAP l.type = some A := by
    rw [hty]; exact NAME_TYPES_MAP_typeName A hA
  have hr1 := cast_type_ok_of d col B none L l A eA vs1 hcol hL hl hnt1 heA
    (Or.inr hAB2) h1
  have e1 : (d.cast_type col B none).2 = none := by rw [hr1]
  have hut : (d.cast_type col B none).1 =
      { d.setDf col vs1 with
          labels := some (dictInsert col ⟨defaultCat B, typeName B, l.is_active⟩ L) } := by
    rw [hr1]
  have hcol2 : col ∈ ({ d.setDf col vs1 with
      labels := some (dictInsert col ⟨defaultCat B, typeName B, l.is_active⟩ L) }
        : Dataset).columns := by
    rw [show ({ d.setDf col vs1 with
      labels := some (dictInsert col ⟨defaultCat B, typeName B, l.is_active⟩ L) }
        : Dataset).columns = (d.setDf col vs1).columns from rfl, columns_setDf]
    exact hcol
  have hl2 : alookup col (dictInsert col ⟨defaultCat B, typeName B, l.is_active⟩ L) =
      some ⟨defaultCat B, typeName B, l.is_active⟩ := alookup_dictInsert_self col _ L
  have hnt2 : NAME_TYPES_MAP (ColumnLabel.type ⟨defaultCat B, typeName B, l.is_active⟩) =
      some B := NAME_TYPES_MAP_typeName B hB
  have hdf : ({ d.setDf col vs1 with
      labels := some (dictInsert col ⟨defaultCat B, typeName B, l.is_active⟩ L) }
        : Dataset).dfGet col = vs1 := dfGet_setDf_self vs1 hcol
  have h2x : value_cast A none (({ d.setDf col vs1 with
      labels := some (dictInsert col ⟨defaultCat B, typeName B, l.is_active⟩ L) }
        : Dataset).dfGet col) = some vs2 := by rw [hdf]; exact h2
  have hr2 := cast_type_ok_of
    ({ d.setDf col vs1 with
        labels := some (dictInsert col ⟨defaultCat B, typeName B, l.is_active⟩ L) })
    col A none (dictInsert col ⟨defaultCat B, typeName B, l.is_active⟩ L)
    ⟨defaultCat B, typeName B, l.is_active⟩ B eB vs2 hcol2 rfl hl2 hnt2 heB
    (Or.inr hBA2) h2x
  refine ⟨e1, ?_, ?_, ?_⟩
  · rw [hut, hr2]
  · rw [hut, hr2]
    exact ⟨_, rfl, alookup_dictInsert_self col _ _⟩
  · simpa [compatCategories, heA] using hheadA

/-- Counterexample for C8 as stated: int and float are mutually castable,
yet casting a float-typed column holding `NaN` to int raises
`CastValueError` — so an A-to-B-to-A round trip can raise. -/
theorem claim8_counterexample :
    PyType.tInt ∈ castable PyType.tFloat ∧ PyType.tFloat ∈ castable PyType.tInt ∧
    dsFloatNan.labels = some [("x", ⟨"numeric", "float", true⟩)] ∧
    Dataset.cast_type dsFloatNan "x" PyType.tInt none =
      (dsFloatNan, some PyErr.castValueNaNToInt) :=
  ⟨by decide, by decide, rfl, by decide⟩

/-- Witness for C8 amended: an int column round-trips through float with
both value casts succeeding, ending on the default category for int. -/
theorem claim8_witness :
    (dsInt.cast_type "x" PyType.tFloat none).2 = none ∧
    ((dsInt.cast_type "x" PyType.tFloat none).1.cast_type "x" PyType.tInt none).2 = none ∧
    (compatCategories PyType.tInt).head? = some (defaultCat PyType.tInt) := by
  have h := claim8_roundtrip_amended dsInt "x" PyType.tInt PyType.tFloat
    [("x", ⟨"numeric", "int", true⟩)] ⟨"numeric", "int", true⟩
    [PyVal.vFloat 3] [PyVal.vInt 3]
    (by decide) rfl rfl rfl (by decide) (by decide) (by decide) rfl rfl
  exact ⟨h.1, h.2.1, h.2.2.2⟩

/-- C4 amended: for an existing column and an enum-valid target category
that is incompatible with the column's current type, `cast_category` does
raise `CategoryTypeMismatchError` — but the label has already been mutated
to the new category when the error is raised; the previous category does
not remain in place. -/
theorem claim4_cast_category_amended (d : Dataset) (col cat : String)
    (L : List (String × ColumnLabel)) (l : ColumnLabel) (ft : PyType) (entry : CastEntry)
    (hcol : col ∈ d.columns) (hL : d.labels = some L) (hl : alookup col L = some l)
    (hnt : NAME_TYPES_MAP l.type = some ft) (hcm : CAST_MAP ft = some entry)
    (hmem : cat = "categorical" ∨ cat = "numeric" ∨ cat = "text" ∨ cat = "date/time")
    (hnc : cat ∉ entry.category) :
    d.cast_category col cat =
      ({ d with labels := some (dictInsert col { l with category := cat } L) },
        some (.categoryTypeMismatch cat l.type)) := by
  have hm : ColumnLabel.category_type_match { l with category := cat } =
      .error (.categoryTypeMismatch cat l.type) := by
    unfold ColumnLabel.category_type_match
    simp only [hnt, hcm]
    rw [if_neg hnc]
  unfold Dataset.cast_category
  simp only [validate_none_of_mem hcol, hL, hl]
  rw [setattr_category_mem l cat hmem]
  simp [hm, Dataset.setLabel, hL]

/-- Counterexample for C4 as stated: casting a float-typed column's
category to the enum-valid but incompatible value `'categorical'` raises
the mismatch error, yet the stored label now carries the new category —
the previous category `'numeric'` is gone. -/
theorem claim4_counterexample :
    Dataset.cast_category dsFloat "x" "categorical" =
      ({ dsFloat with labels := some [("x", ⟨"categorical", "float", true⟩)] },
        some (PyErr.categoryTypeMismatch "categorical" "float")) := rfl

/-- Witness for C4 amended at a concrete dataset. -/
theorem claim4_witness :
    Dataset.cast_category dsFloat "x" "categorical" =
      ({ dsFloat with
          labels := some (dictInsert "x" ⟨"categorical", "float", true⟩
            [("x", ⟨"numeric", "float", true⟩)]) },
        some (PyErr.categoryTypeMismatch "categorical" "float")) :=
  claim4_cast_category_amended dsFloat "x" "categorical"
    [("x", ⟨"numeric", "float", true⟩)] ⟨"numeric", "float", true⟩ PyType.tFloat
    ⟨["numeric"], [.tInt]⟩ (by decide) rfl rfl rfl rfl (Or.inl rfl) (by decide)

/-- Counterexample for C1 as stated: `⟨'categorical', 'int', True⟩` is a
valid label, setting its `type` attribute to `'float'` succeeds, and the
resulting label's category is not in the Compatibility Matrix entry for
its type — no match check ran after the set. -/
theorem claim1_counterexample :
    ColumnLabel.category_type_match ⟨"categorical", "int", true⟩ = .ok () ∧
    ColumnLabel.setattr ⟨"categorical", "int", true⟩ "type" (.aStr "float") =
      .ok ⟨"categorical", "float", true⟩ ∧
    ColumnLabel.category_type_match ⟨"categorical", "float", true⟩ =
      .error (.categoryTypeMismatch "categorical" "float") := ⟨rfl, rfl, rfl⟩

/-- C1 amended: a single-field set validates only the field's primitive
kind and enum membership and, on success, updates exactly that field; the
category/type match check runs on construction (and inside the cast
operations), not after every attribute set. -/
theorem claim1_setattr_amended (l : ColumnLabel) (key : String) (v : AttrVal)
    (l2 : ColumnLabel) (c t a : AttrVal) (lc : ColumnLabel)
    (hset : l.setattr key v = .ok l2) (hcon : ColumnLabel.construct c t a = .ok lc) :
    (∃ attrs, COLUMN_VALUES key = some attrs ∧ isinstance v attrs.type = true ∧
      v ∈ attrs.values ∧ l2 = l.setField key v) ∧
    lc.category_type_match = .ok () := by
  refine ⟨setattr_ok_dest hset, ?_⟩
  unfold ColumnLabel.construct at hcon
  simp only [bind, Except.bind] at hcon
  split at hcon
  · exact absurd hcon (by simp)
  · split at hcon
    · exact absurd hcon (by simp)
    · split at hcon
      · exact absurd hcon (by simp)
      · split at hcon
        · injection hcon with h5
          subst h5
          rename_i heq
          rw [heq]
        · exact absurd hcon (by simp)

/-- Witness for C1 amended: a successful construction whose final label
passes the match check, obtained through the amended theorem. -/
theorem claim1_witness :
    ColumnLabel.category_type_match ⟨"numeric", "int", true⟩ = .ok () :=
  (claim1_setattr_amended ⟨"categorical", "int", true⟩ "type" (.aStr "float")
    ⟨"categorical", "float", true⟩ (.aStr "numeric") (.aStr "int") (.aBool true)
    ⟨"numeric", "int", true⟩ rfl rfl).2

/-- C5 (code evaluated at the failing inputs): `auto_type` returns the type
of the first value even when that value is a null marker — a single-`NaN`
column infers `float` instead of failing, `[NaN, 5]` infers `float` (the
type of `nan`) instead of `int`, and `DataTypeNotFound` fires only for an
empty column. -/
theorem claim5_auto_type_eval :
    Dataset.auto_type dsFloatNan "x" = .ok .tFloat ∧
    Dataset.auto_type_values "c" [.vNan, .vInt 5] = .ok .tFloat ∧
    Dataset.auto_type_values "c" [] = .error (.dataTypeNotFound "c") :=
  ⟨rfl, rfl, rfl⟩

/-- C6: with an inferred string type the auto-category inspects only the
column's first value — `'text'` exactly when its length is at least 20,
`'categorical'` otherwise, whatever the remaining values are; for every
non-string inferred type the category is the direct `CATEGORY_MAP`
lookup. -/
theorem claim6_auto_category (col : String) (s : String) (rest : List PyVal)
    (t : PyType) (vs : List PyVal) (ht : t ≠ .tStr) :
    Dataset.auto_type_values col (.vStr s :: rest) = .ok .tStr ∧
    Dataset.auto_category_values .tStr (.vStr s :: rest) =
      .ok (some (if 20 ≤ s.length then "text" else "categorical")) ∧
    Dataset.auto_category_values t vs =
      (match CATEGORY_MAP t with
       | some c => .ok (some c)
       | none => .error (.keyError (typeName t))) := by
  refine ⟨rfl, ?_, ?_⟩
  · simp [Dataset.auto_category_values, val_is_null_marker]
  · simp [Dataset.auto_category_values, ht]

/-- Witness for C6: a 19-character first value labels `'categorical'`, a
20-character one labels `'text'`, and an int column looks up
`'numeric'`. -/
theorem claim6_witness :
    Dataset.auto_category_values .tStr [.vStr "abcdefghijklmnopqrs"] =
      .ok (some "categorical") ∧
    Dataset.auto_category_values .tStr [.vStr "abcdefghijklmnopqrst"] =
      .ok (some "text") ∧
    Dataset.auto_category_values .tInt [.vInt 1] = .ok (some "numeric") := by
  have h19 := (claim6_auto_category "c" "abcdefghijklmnopqrs" [] .tInt [.vInt 1]
    (by decide)).2.1
  have h20 := (claim6_auto_category "c" "abcdefghijklmnopqrst" [] .tInt [.vInt 1]
    (by decide)).2.1
  have hn := (claim6_auto_category "c" "abcdefghijklmnopqrs" [] .tInt [.vInt 1]
    (by decide)).2.2
  refine ⟨?_, ?_, ?_⟩
  · rw [h19]; rfl
  · rw [h20]; rfl
  · rw [hn]; rfl

/-- C9 (code evaluated at the failing inputs): `handle_nulls` raises the
unknown-strategy `ValueError` for every strategy other than
`'fill_average'` — the documented strategies `'drop_rows'` and
`'drop_column'` perform their action and then raise it anyway, because the
`else` clause is attached only to the last `if`. -/
theorem claim9_handle_nulls_eval :
    Dataset.handle_nulls dsA "a" "drop_rows" =
      (dsA, some (.unknownNullStrategy "drop_rows")) ∧
    Dataset.handle_nulls dsA "a" "drop_column" =
      ({ dsA with df := [], labels := some [] },
        some (.unknownNullStrategy "drop_column")) ∧
    Dataset.handle_nulls dsA "a" "fill_average" = (dsA, none) ∧
    Dataset.handle_nulls dsA "a" "bogus" = (dsA, some (.unknownNullStrategy "bogus")) :=
  ⟨rfl, rfl, rfl, rfl⟩

/-! Lemmas about the label/table synchronization invariant. -/

theorem sync_dest {d : Dataset} (h : labels_in_sync d) :
    ∃ L, d.labels = some L ∧
      (d.df.map Prod.fst).toFinset = (L.map Prod.fst).toFinset := by
  unfold labels_in_sync Dataset.labelKeySet at h
  cases hL : d.labels with
  | none => rw [hL] at h; exact absurd h (by simp)
  | some L =>
    rw [hL] at h
    simp only [Option.map_some'] at h
    injection h with h2
    exact ⟨L, rfl, h2.symm⟩

theorem sync_intro {d : Dataset} {L : List (String × ColumnLabel)}
    (hL : d.labels = some L)
    (h : (d.df.map Prod.fst).toFinset = (L.map Prod.fst).toFinset) :
    labels_in_sync d := by
  unfold labels_in_sync Dataset.labelKeySet
  rw [hL]
  simp [h]

theorem sync_dictInsert (d : Dataset) (col : String) (lab : ColumnLabel)
    (L : List (String × ColumnLabel)) (hL : d.labels = some L)
    (hmem : col ∈ L.map Prod.fst) (h : labels_in_sync d) :
    labels_in_sync { d with labels := some (dictInsert col lab L) } := by
  obtain ⟨L0, hL0, hk⟩ := sync_dest h
  rw [hL] at hL0
  injection hL0 with hLL
  subst hLL
  apply sync_intro rfl
  show (d.df.map Prod.fst).toFinset = _
  rw [keys_dictInsert, Finset.insert_eq_self.mpr (List.mem_toFinset.mpr hmem), ← hk]

theorem setDf_sync (d : Dataset) (col : String) (vs : List PyVal)
    (h : labels_in_sync d) : labels_in_sync (d.setDf col vs) := by
  obtain ⟨L, hL, hk⟩ := sync_dest h
  apply sync_intro (show (d.setDf col vs).labels = some L from hL)
  have hc := columns_setDf d col vs
  unfold Dataset.columns at hc
  rw [hc, hk]

theorem drop_rows_sync (d : Dataset) (idxs : List Nat) (h : labels_in_sync d) :
    labels_in_sync (d.drop_rows idxs) := by
  obtain ⟨L, hL, hk⟩ := sync_dest h
  apply sync_intro (show (d.drop_rows idxs).labels = some L from hL)
  show ((d.df.map fun p => (p.1, dropRowsAt idxs p.2)).map Prod.fst).toFinset = _
  rw [List.map_map]
  exact hk

theorem drop_null_rows_sync (d : Dataset) (col : String) (h : labels_in_sync d) :
    labels_in_sync (d.drop_null_rows col).1 := by
  unfold Dataset.drop_null_rows
  cases hv : d.validate_column_name col with
  | some e => simpa using h
  | none => exact drop_rows_sync d _ h

theorem drop_columns_sync (cs : List String) :
    ∀ d : Dataset, labels_in_sync d → labels_in_sync (d.drop_columns cs).1 := by
  induction cs with
  | nil => intro d h; exact h
  | cons c cs ih =>
    intro d h
    obtain ⟨L, hL, hk⟩ := sync_dest h
    unfold Dataset.drop_columns
    cases hv : d.validate_column_name c with
    | some e => simpa using h
    | none =>
      have hcmem : c ∈ d.columns := by
        by_contra hc
        rw [validate_some_of_not_mem hc] at hv
        exact Option.noConfusion hv
      have hcl : c ∈ L.map Prod.fst := by
        have := List.mem_toFinset.mpr hcmem
        rw [show d.columns = d.df.map Prod.fst from rfl] at this
        rw [hk] at this
        exact List.mem_toFinset.mp this
      have hlook : (alookup c L).isSome = true := (alookup_isSome_iff c L).mpr hcl
      simp only [hL]
      cases hal : alookup c L with
      | none => rw [hal] at hlook; exact absurd hlook (by simp)
      | some l =>
        apply ih
        apply @sync_intro _ (dictDelete c L) rfl
        show ((d.df.filter fun p => p.1 ≠ c).map Prod.fst).toFinset = _
        rw [keys_filter_ne, keys_dictDelete, hk]

theorem fill_average_sync (d : Dataset) (col : String) (h : labels_in_sync d) :
    labels_in_sync (d.fill_average col).1 := by
  unfold Dataset.fill_average
  split
  · simpa using h
  · split
    · simpa using h
    · exact setDf_sync d col _ h

theorem handle_nulls_sync (d : Dataset) (col strategy : String) (h : labels_in_sync d) :
    labels_in_sync (d.handle_nulls col strategy).1 := by
  have h1 : ∀ p : Dataset × Option PyErr,
      (if strategy = "drop_rows" then d.drop_null_rows col else (d, none)) = p →
      labels_in_sync p.1 := by
    intro p hp
    rw [← hp]
    split
    · exact drop_null_rows_sync d col h
    · exact h
  unfold Dataset.handle_nulls
  split
  · rename_i d1 e heq
    exact h1 (d1, some e) heq
  · rename_i d1 heq
    have hd1 : labels_in_sync d1 := h1 (d1, none) heq
    have h2 : ∀ p : Dataset × Option PyErr,
        (if strategy = "drop_column" then d1.drop_columns [col] else (d1, none)) = p →
        labels_in_sync p.1 := by
      intro p hp
      rw [← hp]
      split
      · exact drop_columns_sync [col] d1 hd1
      · exact hd1
    split
    · rename_i d2 e heq2
      exact h2 (d2, some e) heq2
    · rename_i d2 heq2
      have hd2 : labels_in_sync d2 := h2 (d2, none) heq2
      split
      · exact fill_average_sync d2 col hd2
      · exact hd2

theorem cast_type_sync (d : Dataset) (col : String) (t : PyType) (fmt : Option String)
    (h : labels_in_sync d) : labels_in_sync (d.cast_type col t fmt).1 := by
  rcases cast_type_spec d col t fmt with ⟨h1, _⟩ | ⟨L, l, vs2, hL, hl, _, _, heq⟩
  · rwa [h1]
  · rw [heq]
    have hmem : col ∈ L.map Prod.fst :=
      (alookup_isSome_iff col L).mp (by rw [hl]; rfl)
    exact sync_dictInsert (d.setDf col vs2) col _ L hL hmem (setDf_sync d col vs2 h)

theorem cast_category_sync (d : Dataset) (col cat : String)
    (h : labels_in_sync d) : labels_in_sync (d.cast_category col cat).1 := by
  rcases cast_category_cases d col cat with h1 | ⟨L, l, hL, hl, heq⟩
  · rwa [h1]
  · rw [heq]
    have hmem : col ∈ L.map Prod.fst :=
      (alookup_isSome_iff col L).mp (by rw [hl]; rfl)
    exact sync_dictInsert d col _ L hL hmem h

theorem cast_active_sync (d : Dataset) (col : String) (b : Bool)
    (h : labels_in_sync d) : labels_in_sync (d.cast_active col b).1 := by
  rcases cast_active_cases d col b with h1 | ⟨L, l, hL, hl, heq⟩
  · rwa [h1]
  · rw [heq]
    have hmem : col ∈ L.map Prod.fst :=
      (alookup_isSome_iff col L).mp (by rw [hl]; rfl)
    exact sync_dictInsert d col _ L hL hmem h

theorem add_labels_loop_ok (cs : List String) :
    ∀ d d2 : Dataset, Dataset.add_labels_loop d cs = (d2, none) →
      d2.df = d.df ∧ ∀ L, d.labels = some L → ∃ L2, d2.labels = some L2 ∧
        (L2.map Prod.fst).toFinset = (L.map Prod.fst).toFinset ∪ cs.toFinset := by
  induction cs with
  | nil =>
    intro d d2 h
    unfold Dataset.add_labels_loop at h
    injection h with h1 _
    subst h1
    exact ⟨rfl, fun L hL => ⟨L, hL, by simp⟩⟩
  | cons c cs ih =>
    intro d d2 h
    unfold Dataset.add_labels_loop at h
    cases ha : d.auto_assign c with
    | error e => rw [ha] at h; simp at h
    | ok l =>
      rw [ha] at h
      cases hL0 : d.labels with
      | none => rw [hL0] at h; simp at h
      | some L0 =>
        rw [hL0] at h
        obtain ⟨hdf, hlab⟩ := ih _ d2 h
        refine ⟨hdf, fun L hL => ?_⟩
        injection hL with hLL
        obtain ⟨L2, hL2, hk2⟩ := hlab (dictInsert c l L0) rfl
        refine ⟨L2, hL2, ?_⟩
        rw [hk2, keys_dictInsert, hLL]
        ext x
        simp
        try tauto

theorem add_columns_ok_sync (d : Dataset) (ta : PdObj) (d2 : Dataset)
    (h : labels_in_sync d) (hr : d.add_columns ta = (d2, none)) :
    labels_in_sync d2 := by
  obtain ⟨L, hL, hk⟩ := sync_dest h
  cases ta with
  | frame cols =>
    unfold Dataset.add_columns at hr
    obtain ⟨hdf, hlab⟩ := add_labels_loop_ok (cols.map Prod.fst) _ d2 hr
    obtain ⟨L2, hL2, hk2⟩ := hlab L hL
    apply sync_intro hL2
    rw [hdf]
    show ((d.df ++ cols).map Prod.fst).toFinset = _
    rw [List.map_append, List.toFinset_append, hk, hk2]
  | series name vs =>
    unfold Dataset.add_columns at hr
    simp only [] at hr
    by_cases hn : name ∈ d.columns
    · rw [if_pos hn] at hr
      simp at hr
    · rw [if_neg hn] at hr
      have ha : d.auto_assign name = .error (.columnNotFound name) := by
        unfold Dataset.auto_assign
        rw [validate_some_of_not_mem hn]
      rw [ha] at hr
      simp at hr

theorem to_dummies_ok_sync (d : Dataset) (col : String) (dc dft : Bool)
    (pref sep : Option String) (d2 : Dataset) (h : labels_in_sync d)
    (hr : d.to_dummies col dc dft pref sep = (d2, none)) : labels_in_sync d2 := by
  unfold Dataset.to_dummies at hr
  split at hr
  · simp at hr
  · split at hr
    · simp at hr
    · rename_i d1 heqadd
      have hd1 : labels_in_sync d1 := add_columns_ok_sync d _ d1 h heqadd
      split at hr
      · have := drop_columns_sync [col] d1 hd1
        rwa [hr] at this
      · injection hr with h1 _
        subst h1
        exact hd1

theorem gen_labels_keys (cs : List String) :
    ∀ (d0 : Dataset) (acc L : List (String × ColumnLabel)),
      Dataset.gen_labels d0 cs acc = .ok L →
      (L.map Prod.fst).toFinset = (acc.map Prod.fst).toFinset ∪ cs.toFinset := by
  induction cs with
  | nil =>
    intro d0 acc L h
    unfold Dataset.gen_labels at h
    injection h with h2
    subst h2
    simp
  | cons c cs ih =>
    intro d0 acc L h
    unfold Dataset.gen_labels at h
    cases ha : d0.auto_assign c with
    | error e => rw [ha] at h; exact absurd h (by simp)
    | ok l =>
      rw [ha] at h
      have := ih d0 (dictInsert c l acc) L h
      rw [this, keys_dictInsert]
      ext x
      simp
      try tauto

theorem init_none_sync (df0 : List (String × List PyVal)) (deriv : Bool) (d : Dataset)
    (h : Dataset.init df0 none deriv = .ok d) : labels_in_sync d := by
  simp only [Dataset.init] at h
  split at h
  · exact absurd h (by simp)
  · rename_i L heq
    injection h with h2
    subst h2
    apply sync_intro rfl
    have hk := gen_labels_keys _ _ _ _ heq
    simp only [List.map_nil, List.toFinset_nil, Finset.empty_union] at hk
    exact (hk.trans rfl).symm

theorem init_some_labels (df0 : List (String × List PyVal)) (deriv : Bool) (d : Dataset)
    (h : Dataset.init df0 (some ()) deriv = .ok d) : d.labels = none := by
  simp only [Dataset.init] at h
  injection h with h2
  rw [← h2]

/-- C2 amended: construction with `labels=None` establishes the equality of
`labels.keys()` with the table's column set, but construction with a labels
dict never sets the labels mapping at all; `drop_columns`, the three cast
operations and `handle_nulls` preserve the equality in every outcome,
raising included; `add_columns` and `to_dummies` preserve it whenever they
do not raise (a mid-loop auto-labeling failure can leave freshly added
table columns without label entries). -/
theorem claim2_labels_sync_amended :
    (∀ (df0 : List (String × List PyVal)) (deriv : Bool) (d : Dataset),
      Dataset.init df0 none deriv = .ok d → labels_in_sync d) ∧
    (∀ (df0 : List (String × List PyVal)) (deriv : Bool) (d : Dataset),
      Dataset.init df0 (some ()) deriv = .ok d → d.labels = none) ∧
    (∀ (d : Dataset) (cs : List String), labels_in_sync d →
      labels_in_sync (d.drop_columns cs).1) ∧
    (∀ (d : Dataset) (col : String) (t : PyType) (fmt : Option String),
      labels_in_sync d → labels_in_sync (d.cast_type col t fmt).1) ∧
    (∀ (d : Dataset) (col cat : String), labels_in_sync d →
      labels_in_sync (d.cast_category col cat).1) ∧
    (∀ (d : Dataset) (col : String) (b : Bool), labels_in_sync d →
      labels_in_sync (d.cast_active col b).1) ∧
    (∀ (d : Dataset) (col strategy : String), labels_in_sync d →
      labels_in_sync (d.handle_nulls col strategy).1) ∧
    (∀ (d : Dataset) (ta : PdObj) (d2 : Dataset), labels_in_sync d →
      d.add_columns ta = (d2, none) → labels_in_sync d2) ∧
    (∀ (d : Dataset) (col : String) (dc dft : Bool) (pref sep : Option String)
      (d2 : Dataset), labels_in_sync d →
      d.to_dummies col dc dft pref sep = (d2, none) → labels_in_sync d2) :=
  ⟨init_none_sync, init_some_labels,
    fun d cs h => drop_columns_sync cs d h,
    fun d col t fmt h => cast_type_sync d col t fmt h,
    cast_category_sync, cast_active_sync, handle_nulls_sync,
    add_columns_ok_sync,
    fun d col dc dft pref sep d2 h hr => to_dummies_ok_sync d col dc dft pref sep d2 h hr⟩

/-- Counterexample for C2 as stated: construction succeeds with a labels
dict but never sets the labels mapping, so no labels/table equality is
established; and `add_columns` with a column whose auto-labeling raises
leaves the table extended while the labels dict is not. -/
theorem claim2_counterexample :
    Except.map Dataset.labels
      (Dataset.init [("a", [PyVal.vInt 1])] (some ()) false) = .ok none ∧
    labels_in_sync dsEmpty ∧
    ¬ labels_in_sync (dsEmpty.add_columns (.frame [("z", [PyVal.vNone])])).1 ∧
    (dsEmpty.add_columns (.frame [("z", [PyVal.vNone])])).2 ≠ none :=
  ⟨rfl, by decide, by decide, by decide⟩

/-- Witness for C2 amended: a concrete construction establishes the
invariant and a concrete `drop_columns` preserves it. -/
theorem claim2_witness :
    labels_in_sync dsA ∧ labels_in_sync (dsA.drop_columns ["a"]).1 := by
  have h0 : labels_in_sync dsA :=
    claim2_labels_sync_amended.1 [("a", [PyVal.vInt 1])] false dsA rfl
  exact ⟨h0, claim2_labels_sync_amended.2.2.1 dsA ["a"] h0⟩

theorem toFinset_list_range (n : Nat) : (List.range n).toFinset = Finset.range n := by
  ext x
  simp

/-- C10: after `split(test, validate)` on a table of `n` rows, with the
shuffled index list a permutation of `0..n-1` and the fractions nonnegative
summing to at most one, the `test` and `train` entries (and, exactly when
`validate > 0`, the `validate` entry) hold pairwise disjoint lists whose
union is the full index range, with sizes `int(test*n)`,
`n - int(test*n) - int(validate*n)` and `int(validate*n)`, and `is_split`
becomes true. -/
theorem claim10_split (d : Dataset) (shuffled : List Nat) (test validate : ℚ)
    (hperm : shuffled.Perm (List.range d.nrows))
    (ht0 : 0 ≤ test) (hv0 : 0 ≤ validate) (htv : test + validate ≤ 1) :
    ∃ te tr,
      (d.split shuffled test validate).split_indices.test = some te ∧
      (d.split shuffled test validate).split_indices.train = some tr ∧
      (d.split shuffled test validate).is_split = true ∧
      te.length = (pyInt (test * (d.nrows : ℚ))).toNat ∧
      tr.length = d.nrows - (pyInt (test * (d.nrows : ℚ))).toNat
        - (pyInt (validate * (d.nrows : ℚ))).toNat ∧
      te.Disjoint tr ∧
      (0 < validate →
        ∃ va, (d.split shuffled test validate).split_indices.validate = some va ∧
          va.length = (pyInt (validate * (d.nrows : ℚ))).toNat ∧
          te.Disjoint va ∧ va.Disjoint tr ∧
          (te ++ va ++ tr).toFinset = Finset.range d.nrows) ∧
      (validate = 0 → (te ++ tr).toFinset = Finset.range d.nrows) := by
  have hcast : (0 : ℚ) ≤ (d.nrows : ℚ) := by positivity
  have hpt : pyInt (test * (d.nrows : ℚ)) = ⌊test * (d.nrows : ℚ)⌋ := by
    unfold pyInt ratTrunc
    rw [if_pos (mul_nonneg ht0 hcast)]
  have hpv : pyInt (validate * (d.nrows : ℚ)) = ⌊validate * (d.nrows : ℚ)⌋ := by
    unfold pyInt ratTrunc
    rw [if_pos (mul_nonneg hv0 hcast)]
  have hlen : shuffled.length = d.nrows := by simpa using hperm.length_eq
  have hnd : shuffled.Nodup := hperm.symm.nodup (List.nodup_range _)
  have hfla : (0 : ℤ) ≤ ⌊test * (d.nrows : ℚ)⌋ :=
    Int.floor_nonneg.mpr (mul_nonneg ht0 hcast)
  have hflb : (0 : ℤ) ≤ ⌊validate * (d.nrows : ℚ)⌋ :=
    Int.floor_nonneg.mpr (mul_nonneg hv0 hcast)
  have hsumZ : ⌊test * (d.nrows : ℚ)⌋ + ⌊validate * (d.nrows : ℚ)⌋ ≤ (d.nrows : ℤ) := by
    have h1 : ((⌊test * (d.nrows : ℚ)⌋ + ⌊validate * (d.nrows : ℚ)⌋ : ℤ) : ℚ) ≤
        test * (d.nrows : ℚ) + validate * (d.nrows : ℚ) := by
      push_cast
      exact add_le_add (Int.floor_le _) (Int.floor_le _)
    have h2 : test * (d.nrows : ℚ) + validate * (d.nrows : ℚ) ≤ (d.nrows : ℚ) := by
      rw [← add_mul]
      calc (test + validate) * (d.nrows : ℚ) ≤ 1 * (d.nrows : ℚ) :=
            mul_le_mul_of_nonneg_right htv hcast
        _ = (d.nrows : ℚ) := one_mul _
    exact_mod_cast h1.trans h2
  have hsum : (pyInt (test * (d.nrows : ℚ))).toNat +
      (pyInt (validate * (d.nrows : ℚ))).toNat ≤ d.nrows := by
    rw [hpt, hpv]
    omega
  have hsplit : d.split shuffled test validate =
      { d with
          split_indices :=
            { test := some (shuffled.take (pyInt (test * (d.nrows : ℚ))).toNat)
              validate := if 0 < validate then
                  some ((shuffled.drop (pyInt (test * (d.nrows : ℚ))).toNat).take
                    (pyInt (validate * (d.nrows : ℚ))).toNat)
                else d.split_indices.validate
              train := some (shuffled.drop ((pyInt (test * (d.nrows : ℚ))).toNat +
                (pyInt (validate * (d.nrows : ℚ))).toNat)) }
          is_split := true } := rfl
  set ts := (pyInt (test * (d.nrows : ℚ))).toNat with hts
  set vs := (pyInt (validate * (d.nrows : ℚ))).toNat with hvs
  have hdecomp : shuffled =
      shuffled.take ts ++ ((shuffled.drop ts).take vs ++ shuffled.drop (ts + vs)) := by
    have e1 : (shuffled.drop ts).take vs ++ (shuffled.drop ts).drop vs =
        shuffled.drop ts := List.take_append_drop vs _
    have e2 : (shuffled.drop ts).drop vs = shuffled.drop (ts + vs) := by
      rw [List.drop_drop]
    calc shuffled = shuffled.take ts ++ shuffled.drop ts :=
          (List.take_append_drop ts shuffled).symm
      _ = shuffled.take ts ++ ((shuffled.drop ts).take vs ++ (shuffled.drop ts).drop vs) := by
          rw [e1]
      _ = _ := by rw [e2]
  have hlte : (shuffled.take ts).length = ts := by
    rw [List.length_take, hlen]
    omega
  have hlva : ((shuffled.drop ts).take vs).length = vs := by
    rw [List.length_take, List.length_drop, hlen]
    omega
  have hltr : (shuffled.drop (ts + vs)).length = d.nrows - ts - vs := by
    rw [List.length_drop, hlen]
    omega
  have hnd2 := hnd
  rw [hdecomp, List.nodup_append] at hnd2
  obtain ⟨hnd_te, hnd_rest, hdisj_te⟩ := hnd2
  rw [List.nodup_append] at hnd_rest
  obtain ⟨hnd_va, hnd_tr, hdisj_va_tr⟩ := hnd_rest
  rw [List.disjoint_append_right] at hdisj_te
  have huni : (shuffled.take ts ++ ((shuffled.drop ts).take vs ++
      shuffled.drop (ts + vs))).toFinset = Finset.range d.nrows := by
    rw [← hdecomp, List.toFinset_eq_of_perm _ _ hperm, toFinset_list_range]
  refine ⟨shuffled.take ts, shuffled.drop (ts + vs), ?_, ?_, ?_, hlte, hltr,
    hdisj_te.2, ?_, ?_⟩
  · rw [hsplit]
  · rw [hsplit]
  · rw [hsplit]
  · intro hpos
    refine ⟨(shuffled.drop ts).take vs, ?_, hlva, hdisj_te.1, hdisj_va_tr, ?_⟩
    · rw [hsplit]
      simp only [if_pos hpos]
    · simpa using huni
  · intro hzero
    subst hzero
    have hvz : vs = 0 := by
      rw [hvs, hpv]
      simp
    have hj : shuffled.take ts ++ shuffled.drop (ts + vs) = shuffled := by
      rw [hvz]
      simpa using List.take_append_drop ts shuffled
    rw [hj, List.toFinset_eq_of_perm _ _ hperm, toFinset_list_range]

/-- Witness for C10 at a four-row table with `test=1/2`, `validate=1/4` and
a concrete shuffled index list. -/
theorem claim10_witness :
    (dsRows.split [2, 0, 3, 1] (1/2) (1/4)).is_split = true := by
  obtain ⟨te, tr, h1, h2, h3, _⟩ := claim10_split dsRows [2, 0, 3, 1] (1/2) (1/4)
    (by decide) (by norm_num) (by norm_num) (by norm_num)
  exact h3
